import Mathlib

/-!
Shallow embedding of the template instantiation and synchronization engine
of `mcp-focalboard-server/server.py` (the BACON-AI boards MCP server),
together with proofs about its behaviour.

The embedding translates the Python source into Lean:
* `pyReplace` models Python's `str.replace` (all non-overlapping
  occurrences, scanned left to right);
* `pyTitle` models Python's `str.title` for alphabetic words;
* `substituteVariables` models `_substitute_variables`;
* dictionaries are modelled as insertion-ordered association lists
  (`dinsert` / `dlookup`), matching CPython `dict` semantics;
* the network backend is modelled as an oracle (`Env`) supplying the
  response of each API call, and mutating calls are recorded in an
  effects trace.
-/

namespace Boards

/-- Python `str.replace` on character lists, driven by explicit fuel.
The fuel is instantiated with the length of the string being scanned, which
is enough because each step either consumes the (non-empty) pattern or one
character.  An empty pattern never occurs at the call sites in the source
(patterns are always of the form `"${" ++ key ++ "}"`). -/
def replaceFuel (pat rep : List Char) : Nat → List Char → List Char
  | 0, s => s
  | _ + 1, [] => []
  | fuel + 1, c :: rest =>
    if pat.isPrefixOf (c :: rest) then
      rep ++ replaceFuel pat rep fuel ((c :: rest).drop pat.length)
    else
      c :: replaceFuel pat rep fuel rest

/-- Python `s.replace(pat, rep)` for a non-empty pattern, as used by
`_substitute_variables` (the guard for an empty pattern is never exercised
by the source, which always passes `"${NAME}"`). -/
def pyReplace (s pat rep : String) : String :=
  if pat.isEmpty then s
  else ⟨replaceFuel pat.data rep.data s.data.length s.data⟩

/-- `_substitute_variables(text, variables)` from `server.py`: starting from
`text`, for each `(key, value)` pair in dictionary insertion order, replace
every occurrence of `"${key}"` by `value`.  The Python guard
`if not variables: return text` coincides with folding over the empty
list. -/
def substituteVariables (text : String) (vars : List (String × String)) : String :=
  vars.foldl (fun result kv => pyReplace result ("$\x7b" ++ kv.1 ++ "\x7d") kv.2) text

/-- One alphabetic-word step of Python `str.title`: an alphabetic character
starting a word is upper-cased, later alphabetic characters are
lower-cased, non-alphabetic characters are kept and end the current
word. -/
def titleChars : List Char → Bool → List Char
  | [], _ => []
  | c :: rest, prevAlpha =>
    if c.isAlpha then
      (if prevAlpha then c.toLower else c.toUpper) :: titleChars rest true
    else
      c :: titleChars rest false

/-- Python `s.title()` restricted to strings whose cased characters are
ASCII letters (the only inputs reaching it in the source are task status
strings such as `"not-started"`). -/
def pyTitle (s : String) : String :=
  ⟨titleChars s.data false⟩

/-- Insert into an insertion-ordered association list the way CPython
`dict` assignment does: an existing key keeps its position and gets the new
value, a fresh key is appended at the end. -/
def dinsert {α : Type} (l : List (String × α)) (k : String) (v : α) : List (String × α) :=
  if l.any (fun kv => kv.1 = k) then
    l.map (fun kv => if kv.1 = k then (k, v) else kv)
  else
    l ++ [(k, v)]

/-- Python `d[k]` / `d.get(k)` on the association-list model of `dict`:
the value of the most recent assignment to `k`. -/
def dlookup {α : Type} (l : List (String × α)) (k : String) : Option α :=
  (l.reverse.find? (fun kv => kv.1 = k)).map (fun kv => kv.2)

/-- Python `d.setdefault(k, v)`: leave `d` alone when `k` is present,
otherwise append `(k, v)`. -/
def setdefault {α : Type} (l : List (String × α)) (k : String) (v : α) : List (String × α) :=
  if l.any (fun kv => kv.1 = k) then l else l ++ [(k, v)]

/-! ## Template data model (section 3 of the template JSON documents) -/

/-- One entry of a select property's `options` list. -/
structure OptionDef where
  id : Option String
  value : Option String
  deriving DecidableEq, Repr

/-- One entry of `board.cardProperties`.  A missing `options` key and an
empty `options` list are identified: both are falsy in the Python guard
`if prop.get("options"):`. -/
structure PropertyDef where
  id : Option String
  name : Option String
  options : List OptionDef
  deriving DecidableEq, Repr

/-- A checklist entry may be a bare string or an object with optional
`title` / `checked` keys (`server.py` lines 2442-2443). -/
inductive ChecklistItem where
  | bare (s : String)
  | obj (title : Option String) (checked : Option Bool)
  deriving DecidableEq, Repr

/-- One entry of a task's `content_blocks` list. -/
structure ContentBlock where
  type : Option String
  content : Option String
  deriving DecidableEq, Repr

/-- A template-side task. -/
structure Task where
  id : Option String
  title : Option String
  icon : Option String
  status : Option String
  checklist : List ChecklistItem
  content_blocks : List ContentBlock
  deriving DecidableEq, Repr

/-- A template phase. -/
structure Phase where
  number : Option Nat
  name : Option String
  tasks : List Task
  deriving DecidableEq, Repr

/-- The `meta` section of a template. -/
structure Meta where
  id : Option String
  name : Option String
  version : Option String
  deriving DecidableEq, Repr

/-- The `board` section of a template. -/
structure BoardConfig where
  title : Option String
  description : Option String
  icon : Option String
  type : Option String
  cardProperties : List PropertyDef
  deriving DecidableEq, Repr

/-- One `source_instances` entry of a feedback proposal. -/
structure SourceInstance where
  id : String
  project : String
  deriving DecidableEq, Repr

/-- A feedback proposal as appended by `focalboard_sync_template`
(`server.py` lines 2757-2767); `votes` is modelled by its two lists. -/
structure FeedbackProposal where
  id : String
  created : String
  type : String
  targetPhase : Nat
  changeTitle : Option String
  rationale : String
  source_instances : List SourceInstance
  approveVotes : List String
  rejectVotes : List String
  status : String
  deriving DecidableEq, Repr

/-- The `feedback` section of a template. -/
structure Feedback where
  pending_proposals : List FeedbackProposal
  approved_proposals : List FeedbackProposal
  rejected_proposals : List FeedbackProposal
  deriving DecidableEq, Repr

/-- One entry of `instances.active`. -/
structure InstanceRecord where
  board_id : String
  project_name : String
  created : String
  template_version : String
  current_version : String
  upgrade_status : String
  deriving DecidableEq, Repr

/-- The `instances` section of a template. -/
structure Instances where
  active : List InstanceRecord
  archived : List InstanceRecord
  deriving DecidableEq, Repr

/-- A loaded template document.  Each `Option` section mirrors a
`template.get(...)` access with a default in the source. -/
structure Template where
  meta : Option Meta
  board : Option BoardConfig
  phases : List Phase
  feedback : Option Feedback
  instances : Option Instances
  deriving DecidableEq, Repr

/-! ## Instantiator (`focalboard_instantiate_template`, `server.py` 2307-2604)

The board backend is an external collaborator reached through
`_api_request`; it is modelled as an oracle (`Env`) giving the response of
each call, and every mutating call the function issues is recorded in an
effects trace.  Randomly generated block ids (`_generate_block_id`) are
modelled by an id supply `genId` indexed by the number of ids drawn so
far, and wall-clock reads by the fixed `today` / `nowIso` / `nowMs`
fields. -/

/-- Outcome of an `_api_request` call whose caller checks
`"error" in result` and then reads the `"id"` field of the response
(`ok none` models a success response carrying no `"id"` key). -/
inductive ApiResult where
  | err (msg : String)
  | ok (id : Option String)
  deriving DecidableEq, Repr

/-- The JSON body POSTed to `/boards` (`server.py` 2353-2361). -/
structure CreateBoardData where
  teamId : String
  type : String
  title : String
  description : String
  icon : String
  showDescription : Bool
  cardProperties : List PropertyDef
  deriving DecidableEq, Repr

/-- The JSON body POSTed to `/boards/{id}/cards` (`server.py` 2413-2417):
`properties` maps property ids to option ids. -/
structure CardData where
  title : String
  icon : String
  properties : List (String × String)
  deriving DecidableEq, Repr

/-- A child block as built for checklist items and content blocks
(`server.py` 2445-2455 and 2480-2503); `fieldsValue` is the
`fields.value` of a checkbox block and `none` for the empty `fields` of
text and divider blocks. -/
structure Block where
  id : String
  type : String
  parentId : String
  boardId : String
  title : String
  fieldsValue : Option Bool
  schema : Nat
  createAt : Nat
  updateAt : Nat
  deriving DecidableEq, Repr

/-- The view block POSTed in step 3 (`server.py` 2531-2555).  The
constant empty collections of the source (`cardOrder`, `filter`, ... )
are omitted; the fields the claims speak about are kept. -/
structure ViewData where
  id : String
  parentId : String
  boardId : String
  schema : Nat
  type : String
  title : String
  viewType : String
  visiblePropertyIds : List String
  createAt : Nat
  updateAt : Nat
  deriving DecidableEq, Repr

/-- One element of the `GET /boards/{id}/blocks?type=card` response, as
read at `server.py` 2513-2515. -/
structure CardStub where
  id : String
  contentOrder : List String
  deriving DecidableEq, Repr

/-- Backend oracle for one `instantiate` run. -/
structure Env where
  boardCreate : CreateBoardData → ApiResult
  cardCreate : String → CardData → ApiResult
  getCardBlocks : String → Option (List CardStub)
  viewPost : String → ViewData → ApiResult
  genId : Nat → String
  today : String
  nowIso : String
  nowMs : Nat
  findCategory : String → Option String

/-- A mutating backend or filesystem interaction issued by the engine,
in issue order. -/
inductive Effect where
  | boardPost (data : CreateBoardData)
  | cardPost (boardId : String) (data : CardData)
  | blocksPost (boardId : String) (blocks : List Block)
  | contentOrderPatch (boardId cardId : String) (contentOrder : List String)
  | viewPost (boardId : String) (view : ViewData)
  | templateSave (tpl : Template) (templateId category : String)
  deriving DecidableEq, Repr

/-- `propertyName -> propertyId` and
`propertyName -> (optionValue -> optionId)` lookup tables
(`server.py` 2370-2383). -/
structure PropMaps where
  property_map : List (String × String)
  option_map : List (String × List (String × String))
  deriving DecidableEq, Repr

/-- The dict comprehension at `server.py` 2380-2383:
`{opt.get("value", ""): opt.get("id", "") for opt in options}`. -/
def optionTable (options : List OptionDef) : List (String × String) :=
  options.foldl (fun acc opt => dinsert acc (opt.value.getD "") (opt.id.getD "")) []

/-- The loop at `server.py` 2374-2383 building both lookup tables; a
property with a missing-or-empty options list contributes no
`option_map` entry. -/
def buildPropMaps (props : List PropertyDef) : PropMaps :=
  props.foldl
    (fun maps prop =>
      let prop_name := prop.name.getD ""
      let prop_id := prop.id.getD ""
      { property_map := dinsert maps.property_map prop_name prop_id,
        option_map :=
          if prop.options ≠ [] then
            dinsert maps.option_map prop_name (optionTable prop.options)
          else maps.option_map })
    ⟨[], []⟩

/-- The card payload built for one task (`server.py` 2393-2417): the
status option is looked up under the title-cased, hyphen-to-space form of
the task status, the phase option under `"Phase {number}"`; a missing or
empty option id leaves the property unset. -/
def buildCardData (maps : PropMaps) (vars : List (String × String))
    (phaseNum : Nat) (task : Task) : CardData :=
  let task_title := substituteVariables (task.title.getD "Untitled Task") vars
  let status := task.status.getD "not-started"
  let props0 : List (String × String) := []
  let props1 :=
    match dlookup maps.property_map "Status", dlookup maps.option_map "Status" with
    | some statusPropId, some statusOptions =>
      let status_option_id := (dlookup statusOptions (pyTitle (pyReplace status "-" " "))).getD ""
      if status_option_id ≠ "" then dinsert props0 statusPropId status_option_id else props0
    | _, _ => props0
  let props2 :=
    match dlookup maps.property_map "Phase", dlookup maps.option_map "Phase" with
    | some phasePropId, some phaseOptions =>
      let phase_option_id := (dlookup phaseOptions ("Phase " ++ toString phaseNum)).getD ""
      if phase_option_id ≠ "" then dinsert props1 phasePropId phase_option_id else props1
    | _, _ => props1
  { title := task_title, icon := task.icon.getD "📋", properties := props2 }

/-- `item if isinstance(item, str) else item.get("title", "")`. -/
def checklistItemTitle : ChecklistItem → String
  | .bare s => s
  | .obj t _ => t.getD ""

/-- `False if isinstance(item, str) else item.get("checked", False)`. -/
def checklistItemChecked : ChecklistItem → Bool
  | .bare _ => false
  | .obj _ c => c.getD false

/-- Mutable state of the per-task loop: cards created so far, the errors
list, how many random block ids have been drawn, and the effect trace. -/
structure LoopState where
  cardsCreated : Nat
  errors : List String
  nextId : Nat
  effects : List Effect

/-- The checkbox blocks for a task's checklist (`server.py` 2440-2456). -/
def checklistBlocks (env : Env) (vars : List (String × String))
    (boardId cardId : String) (startId : Nat) (checklist : List ChecklistItem) : List Block :=
  checklist.enum.map (fun p =>
    { id := env.genId (startId + p.1), type := "checkbox", parentId := cardId,
      boardId := boardId,
      title := substituteVariables (checklistItemTitle p.2) vars,
      fieldsValue := some (checklistItemChecked p.2),
      schema := 1, createAt := env.nowMs, updateAt := env.nowMs })

/-- The text / divider blocks for a task's `content_blocks`
(`server.py` 2476-2505). -/
def contentBlocksFor (env : Env) (vars : List (String × String))
    (boardId cardId : String) (startId : Nat) (blocks : List ContentBlock) : List Block :=
  blocks.enum.map (fun p =>
    let block_id := env.genId (startId + p.1)
    if p.2.type.getD "text" = "divider" then
      { id := block_id, type := "divider", parentId := cardId, boardId := boardId,
        title := "", fieldsValue := none, schema := 1,
        createAt := env.nowMs, updateAt := env.nowMs }
    else
      { id := block_id, type := "text", parentId := cardId, boardId := boardId,
        title := substituteVariables (p.2.content.getD "") vars, fieldsValue := none,
        schema := 1, createAt := env.nowMs, updateAt := env.nowMs })

/-- One iteration of the per-task loop (`server.py` 2393-2522): build the
card payload, create the card (a failure appends one message to `errors`
and moves on), then materialize checklist and content blocks — whose
call results the source discards, so they touch only the trace. -/
def processTask (env : Env) (boardId : String) (maps : PropMaps)
    (vars : List (String × String)) (phaseNum : Nat)
    (st : LoopState) (task : Task) : LoopState :=
  let card_data := buildCardData maps vars phaseNum task
  let st := { st with effects := st.effects ++ [Effect.cardPost boardId card_data] }
  match env.cardCreate boardId card_data with
  | .err e =>
    { st with errors := st.errors ++ ["Task '" ++ card_data.title ++ "': " ++ e] }
  | .ok idOpt =>
    let card_id := idOpt.getD ""
    let st := { st with cardsCreated := st.cardsCreated + 1 }
    let st :=
      if task.checklist ≠ [] ∧ card_id ≠ "" then
        let new_blocks := checklistBlocks env vars boardId card_id st.nextId task.checklist
        let content_order := new_blocks.map (fun b => b.id)
        { st with nextId := st.nextId + task.checklist.length,
                  effects := st.effects ++
                    [Effect.blocksPost boardId new_blocks,
                     Effect.contentOrderPatch boardId card_id content_order] }
      else st
    if task.content_blocks ≠ [] ∧ card_id ≠ "" then
      let new_blocks := contentBlocksFor env vars boardId card_id st.nextId task.content_blocks
      let additions := new_blocks.map (fun b => b.id)
      let st := { st with nextId := st.nextId + task.content_blocks.length,
                          effects := st.effects ++ [Effect.blocksPost boardId new_blocks] }
      match env.getCardBlocks boardId with
      | none => st
      | some stubs =>
        match stubs.find? (fun c => c.id = card_id) with
        | none => st
        | some stub =>
          { st with effects := st.effects ++
              [Effect.contentOrderPatch boardId card_id (stub.contentOrder ++ additions)] }
    else st

/-- The outer loop over phases and tasks (`server.py` 2389-2522). -/
def runTaskLoop (env : Env) (boardId : String) (maps : PropMaps)
    (vars : List (String × String)) (phases : List Phase) (st : LoopState) : LoopState :=
  phases.foldl
    (fun st phase => phase.tasks.foldl (processTask env boardId maps vars (phase.number.getD 0)) st)
    st

/-- The merged variables map: caller variables with `PROJECT_NAME` and
`CURRENT_DATE` set as defaults (`server.py` 2342-2344). -/
def instVars (env : Env) (projectName : String)
    (callerVars : Option (List (String × String))) : List (String × String) :=
  setdefault (setdefault (callerVars.getD []) "PROJECT_NAME" projectName)
    "CURRENT_DATE" env.today

/-- The board-creation payload (`server.py` 2351-2361). -/
def instBoardData (env : Env) (tpl : Template) (projectName teamId : String)
    (callerVars : Option (List (String × String))) : CreateBoardData :=
  let vars := instVars env projectName callerVars
  let board_config := tpl.board.getD ⟨none, none, none, none, []⟩
  { teamId := teamId,
    type := board_config.type.getD "P",
    title := substituteVariables (board_config.title.getD "${PROJECT_NAME} Board") vars,
    description := substituteVariables (board_config.description.getD "") vars,
    icon := board_config.icon.getD "🥓",
    showDescription := true,
    cardProperties := board_config.cardProperties }

/-- The lookup tables of an instantiate run. -/
def instMaps (tpl : Template) : PropMaps :=
  buildPropMaps (tpl.board.getD ⟨none, none, none, none, []⟩).cardProperties

/-- The view block of step 3 (`server.py` 2525-2555). -/
def mkViewData (env : Env) (boardId viewId statusPropId : String) : ViewData :=
  { id := viewId, parentId := boardId, boardId := boardId, schema := 1,
    type := "view", title := "Task Overview", viewType := "table",
    visiblePropertyIds := if statusPropId ≠ "" then [statusPropId] else [],
    createAt := env.nowMs, updateAt := env.nowMs }

/-- The structured content of a successful instantiate response
(`server.py` 2579-2604). -/
structure InstOk where
  boardId : String
  boardTitle : String
  cardsCreated : Nat
  errors : List String
  viewCreated : Bool
  deriving DecidableEq, Repr

/-- Either the fatal board-creation error or a success payload. -/
inductive InstResult where
  | boardError (msg : String)
  | ok (r : InstOk)
  deriving DecidableEq, Repr

/-- Result and effect trace of one instantiate run. -/
structure InstOutput where
  result : InstResult
  effects : List Effect
  deriving DecidableEq, Repr

/-- `focalboard_instantiate_template` after a successful template load
(`server.py` 2341-2604): create the board (fatal on failure), run the
per-task loop, post the default view, append an instance record and save
the template when discovery locates its category. -/
def instantiateTemplate (env : Env) (tpl : Template)
    (templateId projectName teamId : String)
    (callerVars : Option (List (String × String))) : InstOutput :=
  let vars := instVars env projectName callerVars
  let board_data := instBoardData env tpl projectName teamId callerVars
  match env.boardCreate board_data with
  | .err e =>
    { result := .boardError ("Error creating board: " ++ e),
      effects := [Effect.boardPost board_data] }
  | .ok bid =>
    let board_id := bid.getD "unknown"
    let maps := instMaps tpl
    let st := runTaskLoop env board_id maps vars tpl.phases
      { cardsCreated := 0, errors := [], nextId := 0, effects := [Effect.boardPost board_data] }
    let view_id := env.genId st.nextId
    let status_prop_id := (dlookup maps.property_map "Status").getD ""
    let view := mkViewData env board_id view_id status_prop_id
    let view_created :=
      match env.viewPost board_id view with
      | .err _ => false
      | .ok _ => true
    let meta := tpl.meta.getD ⟨none, none, none⟩
    let template_instances := tpl.instances.getD ⟨[], []⟩
    let record : InstanceRecord :=
      { board_id := board_id, project_name := projectName, created := env.nowIso,
        template_version := meta.version.getD "1.0.0",
        current_version := meta.version.getD "1.0.0",
        upgrade_status := "current" }
    let newInstances :=
      { template_instances with active := template_instances.active ++ [record] }
    let tpl' := { tpl with instances := some newInstances }
    let saveEffects :=
      match env.findCategory templateId with
      | some cat => [Effect.templateSave tpl' templateId cat]
      | none => []
    { result := .ok
        { boardId := board_id, boardTitle := board_data.title,
          cardsCreated := st.cardsCreated, errors := st.errors,
          viewCreated := view_created },
      effects := st.effects ++ [Effect.viewPost board_id view] ++ saveEffects }

/-! ## SyncEngine (`focalboard_sync_template`, `server.py` 2617-2785) -/

/-- One `board_cards` entry (`server.py` 2673-2680). -/
structure BoardCard where
  id : Option String
  title : Option String
  icon : Option String
  deriving DecidableEq, Repr

/-- One `template_tasks` entry (`server.py` 2662-2671); in sync, titles
carry no default: a task without a `title` key contributes `none`. -/
structure SyncTask where
  id : Option String
  title : Option String
  phase : Option Nat
  icon : Option String
  checklist_count : Nat
  deriving DecidableEq, Repr

/-- The flattened task list built by sync (`server.py` 2662-2671). -/
def syncTemplateTasks (tpl : Template) : List SyncTask :=
  tpl.phases.flatMap (fun ph => ph.tasks.map (fun t =>
    { id := t.id, title := t.title, phase := ph.number, icon := t.icon,
      checklist_count := t.checklist.length }))

/-- The Python set `{t["title"] for t in template_tasks}`. -/
def templateTitleSet (tpl : Template) : Finset (Option String) :=
  ((syncTemplateTasks tpl).map (fun t => t.title)).toFinset

/-- The Python set `{c["title"] for c in board_cards}`. -/
def boardTitleSet (cards : List BoardCard) : Finset (Option String) :=
  (cards.map (fun c => c.title)).toFinset

/-- `missing_from_board = template_titles - board_titles`
(`server.py` 2686). -/
def missingFromBoard (tpl : Template) (cards : List BoardCard) : Finset (Option String) :=
  templateTitleSet tpl \ boardTitleSet cards

/-- `extra_in_board = board_titles - template_titles` (`server.py` 2687). -/
def extraInBoard (tpl : Template) (cards : List BoardCard) : Finset (Option String) :=
  boardTitleSet cards \ templateTitleSet tpl

/-- The minimal card payload of the `template_to_board` apply path
(`server.py` 2730-2734): title and icon only, empty properties. -/
structure SyncCardData where
  title : Option String
  icon : String
  deriving DecidableEq, Repr

/-- A mutating interaction issued by sync. -/
inductive SyncEffect where
  | cardPost (boardId : String) (data : SyncCardData)
  | templateSave (tpl : Template) (templateId category : String)
  deriving DecidableEq, Repr

/-- Backend oracle for one sync run.  `enumExtra` models the iteration
order of the Python set `extra_in_board` (unspecified by the source);
`genId` models `_generate_block_id` for proposal ids. -/
structure SyncEnv where
  getBoard : String → Except String Unit
  getCards : String → Except String (Option (List BoardCard))
  syncCardCreate : String → SyncCardData → ApiResult
  enumExtra : Finset (Option String) → List (Option String)
  genId : Nat → String
  dateStr : String
  nowIso : String
  findCategory : String → Option String

/-- The proposal appended for one extra card title
(`server.py` 2756-2767). -/
def mkProposal (env : SyncEnv) (boardId : String) (i : Nat)
    (title : Option String) : FeedbackProposal :=
  { id := "FP-" ++ env.dateStr ++ "-" ++ (env.genId i).take 6,
    created := env.nowIso, type := "add_task", targetPhase := 0,
    changeTitle := title,
    rationale := "Task discovered in board " ++ boardId,
    source_instances := [⟨boardId, "Unknown"⟩],
    approveVotes := [], rejectVotes := [], status := "pending" }

/-- Structured content of a sync report. -/
structure SyncReport where
  templateOut : Template
  missing : Finset (Option String)
  extra : Finset (Option String)
  templateTaskCount : Nat
  boardCardCount : Nat
  cardsCreated : Option Nat
  proposalsAdded : List FeedbackProposal
  effects : List SyncEffect

/-- Either an early error or a report. -/
inductive SyncResult where
  | err (msg : String)
  | report (r : SyncReport)

/-- `focalboard_sync_template` after a successful template load
(`server.py` 2650-2785): fetch board and cards (errors abort), diff by
title, then apply the direction-specific action unless `dryRun`. -/
def syncTemplate (env : SyncEnv) (tpl : Template) (boardId templateId : String)
    (direction : String) (dryRun : Bool) : SyncResult :=
  match env.getBoard boardId with
  | .error e => .err ("Error: " ++ e)
  | .ok _ =>
  match env.getCards boardId with
  | .error e => .err ("Error: " ++ e)
  | .ok cardsOpt =>
    let cards := cardsOpt.getD []
    let template_tasks := syncTemplateTasks tpl
    let missing := missingFromBoard tpl cards
    let extra := extraInBoard tpl cards
    let base : SyncReport :=
      { templateOut := tpl, missing := missing, extra := extra,
        templateTaskCount := template_tasks.length,
        boardCardCount := cards.length,
        cardsCreated := none, proposalsAdded := [], effects := [] }
    if direction = "template_to_board" ∧ missing ≠ ∅ then
      if dryRun then .report base
      else
        let actions := template_tasks.filter (fun t => t.title ∈ missing)
        let posts := actions.map (fun t =>
          SyncEffect.cardPost boardId { title := t.title, icon := t.icon.getD "📋" })
        let created := actions.countP (fun t =>
          match env.syncCardCreate boardId { title := t.title, icon := t.icon.getD "📋" } with
          | .err _ => false
          | .ok _ => true)
        .report { base with cardsCreated := some created, effects := posts }
    else if direction = "board_to_template" ∧ extra ≠ ∅ then
      if dryRun then .report base
      else
        let extraL := env.enumExtra extra
        let proposals := extraL.enum.map (fun p => mkProposal env boardId p.1 p.2)
        let fb := tpl.feedback.getD ⟨[], [], []⟩
        let fb' := { fb with pending_proposals := fb.pending_proposals ++ proposals }
        let tpl' := { tpl with feedback := some fb' }
        let saveEffects :=
          match env.findCategory templateId with
          | some cat => [SyncEffect.templateSave tpl' templateId cat]
          | none => []
        .report { base with templateOut := tpl', proposalsAdded := proposals,
                            effects := saveEffects }
    else .report base

/-! ## TrackingStore (`server.py` 2793-2909) -/

def TRACKING_PROP_TEMPLATE_ID : String := "bacon-template-id"
def TRACKING_PROP_TEMPLATE_VERSION : String := "bacon-template-version"
def TRACKING_PROP_UPGRADE_STATUS : String := "bacon-upgrade-status"

/-- `focalboard_set_board_tracking` (`server.py` 2886-2895) issues one
PATCH whose `updatedProperties` carry all three tracking keys; under a
backend that faithfully merges written board properties, the board's
property map is updated by the three assignments. -/
def setBoardTracking (props : List (String × String))
    (templateId templateVersion upgradeStatus : String) : List (String × String) :=
  dinsert
    (dinsert
      (dinsert props TRACKING_PROP_TEMPLATE_ID templateId)
      TRACKING_PROP_TEMPLATE_VERSION templateVersion)
    TRACKING_PROP_UPGRADE_STATUS upgradeStatus

/-- Result of `focalboard_get_board_tracking`. -/
inductive TrackingResult where
  | untracked
  | tracked (templateId templateVersion upgradeStatus : String)
  deriving DecidableEq, Repr

/-- `focalboard_get_board_tracking` (`server.py` 2822-2834): read the
three tracking keys off the board's property map; an empty (or missing)
template id means the board is reported untracked. -/
def getBoardTracking (props : List (String × String)) : TrackingResult :=
  let template_id := (dlookup props TRACKING_PROP_TEMPLATE_ID).getD ""
  let template_version := (dlookup props TRACKING_PROP_TEMPLATE_VERSION).getD ""
  let upgrade_status := (dlookup props TRACKING_PROP_UPGRADE_STATUS).getD ""
  if template_id = "" then .untracked
  else .tracked template_id template_version upgrade_status

/-- Python `str.strip()`: drop leading and trailing whitespace. -/
def pyStrip (s : String) : String :=
  ⟨((s.data.dropWhile Char.isWhitespace).reverse.dropWhile Char.isWhitespace).reverse⟩

/-- Split a character list at every `'.'`. -/
def splitOnDotAux : List Char → List Char → List (List Char)
  | [], acc => [acc.reverse]
  | c :: rest, acc =>
    if c = '.' then acc.reverse :: splitOnDotAux rest [] else splitOnDotAux rest (c :: acc)

/-- The `^\d+\.\d+\.\d+$` pattern of `SetBoardTrackingInput.template_version`
(`server.py` 560), with `\d` restricted to ASCII digits. -/
def isSemverTriple (s : String) : Bool :=
  match splitOnDotAux s.data [] with
  | [a, b, c] =>
    !a.isEmpty && !b.isEmpty && !c.isEmpty &&
    a.all Char.isDigit && b.all Char.isDigit && c.all Char.isDigit
  | _ => false

/-- Pydantic validation of `SetBoardTrackingInput` (`server.py` 543-565):
`str_strip_whitespace` strips every field, `board_id` and `template_id`
must be non-empty after stripping, and the version must match the semver
pattern.  Returns the stripped field values actually used by the call. -/
def validateSetTracking (boardId templateId templateVersion upgradeStatus : String) :
    Option (String × String × String × String) :=
  if pyStrip boardId ≠ "" ∧ pyStrip templateId ≠ "" ∧ isSemverTriple (pyStrip templateVersion)
  then some (pyStrip boardId, pyStrip templateId, pyStrip templateVersion, pyStrip upgradeStatus)
  else none

/-! ## TemplateStore discovery (`_discover_templates`, `server.py` 767-810)

A parsed `template.json` can hold any JSON value, and the summary
extraction accesses it with Python's dynamically-typed `.get`, `len` and
iteration.  To settle how discovery behaves on documents of unexpected
shape these dynamic operations are modelled on a `Json` type together
with the Python exceptions they raise; only `json.JSONDecodeError` and
`IOError` are caught by the source's `except` clause. -/

/-- A JSON value (numbers restricted to integers, which covers every
input the development evaluates). -/
inductive Json where
  | null
  | bool (b : Bool)
  | num (n : Int)
  | str (s : String)
  | arr (items : List Json)
  | obj (fields : List (String × Json))

/-- A Python exception escaping the summary extraction (not caught by
`except (json.JSONDecodeError, IOError)`). -/
inductive PyError where
  | attributeError (msg : String)
  | typeError (msg : String)
  deriving DecidableEq, Repr

/-- Python `value.get(key, default)`: only `dict` has `.get`; any other
value raises `AttributeError`. -/
def pyGet (j : Json) (k : String) (dflt : Json) : Except PyError Json :=
  match j with
  | .obj fields => .ok ((dlookup fields k).getD dflt)
  | _ => .error (.attributeError "object has no attribute get")

/-- Python `len(value)`: lists, strings and dicts have a length; other
values raise `TypeError`. -/
def pyLen (j : Json) : Except PyError Nat :=
  match j with
  | .arr items => .ok items.length
  | .str s => .ok s.length
  | .obj fields => .ok fields.length
  | _ => .error (.typeError "object has no len")

/-- Python iteration `for x in value`: lists yield their items, strings
their characters, dicts their keys; other values raise `TypeError`. -/
def pyIter (j : Json) : Except PyError (List Json) :=
  match j with
  | .arr items => .ok items
  | .str s => .ok (s.data.map (fun c => Json.str (String.singleton c)))
  | .obj fields => .ok (fields.map (fun f => Json.str f.1))
  | _ => .error (.typeError "object is not iterable")

/-- One summary dict appended by discovery (`server.py` 793-805); fields
copied from the document keep their dynamic `Json` type. -/
structure TemplateSummary where
  id : Json
  name : Json
  version : Json
  category : String
  description : Json
  author : Json
  complexity : Json
  tags : Json
  path : String
  phases_count : Nat
  tasks_count : Nat

/-- The summary construction for one parsed document, with the source's
evaluation order; any dynamic-typing failure escapes as a `PyError`. -/
def extractSummary (dirName catName path : String) (template : Json) :
    Except PyError TemplateSummary := do
  let meta ← pyGet template "meta" (.obj [])
  let idv ← pyGet meta "id" (.str dirName)
  let namev ← pyGet meta "name" (.str dirName)
  let versionv ← pyGet meta "version" (.str "0.0.0")
  let descv ← pyGet meta "description" (.str "")
  let authorv ← pyGet meta "author" (.str "Unknown")
  let complexityv ← pyGet meta "complexity" (.str "medium")
  let tagsv ← pyGet meta "tags" (.arr [])
  let phasesv ← pyGet template "phases" (.arr [])
  let phases_count ← pyLen phasesv
  let phasesv2 ← pyGet template "phases" (.arr [])
  let phaseItems ← pyIter phasesv2
  let taskCounts ← phaseItems.mapM (fun p => do
    let tasksv ← pyGet p "tasks" (.arr [])
    pyLen tasksv)
  .ok { id := idv, name := namev, version := versionv, category := catName,
        description := descv, author := authorv, complexity := complexityv,
        tags := tagsv, path := path, phases_count := phases_count,
        tasks_count := taskCounts.sum }

/-- State of `template.json` inside one template directory: absent,
present but failing `open`/`json.load` (the two caught exceptions), or
parsed to a JSON value. -/
inductive FileState where
  | absent
  | unreadable
  | parsed (j : Json)

/-- A directory entry inside a category directory. -/
structure TemplateDirEntry where
  name : String
  isDir : Bool
  templateJson : FileState

/-- A directory entry inside the template root. -/
structure CategoryEntry where
  name : String
  isDir : Bool
  entries : List TemplateDirEntry

/-- The template root directory. -/
structure TemplateRoot where
  rootExists : Bool
  entries : List CategoryEntry

/-- The inner loop of `_discover_templates` over one category directory
(`server.py` 782-808): non-directories and absent files are skipped,
unreadable or unparseable files are skipped by the `except` clause, and
a summary-extraction exception propagates. -/
def discoverInDir (basePath catName : String) (entries : List TemplateDirEntry) :
    Except PyError (List TemplateSummary) :=
  entries.foldlM
    (fun acc entry =>
      if !entry.isDir then .ok acc
      else
        match entry.templateJson with
        | .absent => .ok acc
        | .unreadable => .ok acc
        | .parsed j => do
          let s ← extractSummary entry.name catName
            (basePath ++ "/" ++ catName ++ "/" ++ entry.name ++ "/template.json") j
          .ok (acc ++ [s]))
    []

/-- `_discover_templates(category)` (`server.py` 767-810). -/
def discoverTemplates (basePath : String) (root : TemplateRoot)
    (category : Option String) : Except PyError (List TemplateSummary) :=
  if !root.rootExists then .ok []
  else
    root.entries.foldlM
      (fun acc catDir =>
        if !catDir.isDir then .ok acc
        else if (match category with | some c => decide (catDir.name ≠ c) | none => false) then .ok acc
        else do
          let sums ← discoverInDir basePath catDir.name catDir.entries
          .ok (acc ++ sums))
      []

/-! ## Derived observations used by the theorems -/

/-- `pat` occurs as a contiguous substring of `s` (character-list form);
this is the condition under which `replaceFuel` can rewrite anything. -/
def occursIn (pat : List Char) : List Char → Bool
  | [] => pat.isPrefixOf []
  | c :: rest => pat.isPrefixOf (c :: rest) || occursIn pat rest

/-- The phase-number / task pairs visited by the instantiate loop, in
template order. -/
def flatTasks (phases : List Phase) : List (Nat × Task) :=
  phases.flatMap (fun ph => ph.tasks.map (fun t => (ph.number.getD 0, t)))

/-- The message instantiate appends to `errors` when the card-creation
call for a task fails, `none` when it succeeds. -/
def taskErrorMsg (env : Env) (boardId : String) (maps : PropMaps)
    (vars : List (String × String)) (pt : Nat × Task) : Option String :=
  let cd := buildCardData maps vars pt.1 pt.2
  match env.cardCreate boardId cd with
  | .err e => some ("Task '" ++ cd.title ++ "': " ++ e)
  | .ok _ => none

/-- The view payloads among a trace's effects. -/
def viewPosts (effects : List Effect) : List ViewData :=
  effects.filterMap (fun e =>
    match e with
    | .viewPost _ v => some v
    | _ => none)

/-- The pending proposals of a template, with sync's default for a
missing `feedback` section. -/
def pendingOf (tpl : Template) : List FeedbackProposal :=
  (tpl.feedback.getD ⟨[], [], []⟩).pending_proposals

/-- The template document held in memory after a sync run (the input
template when the run aborted before the diff). -/
def syncTemplateOut (res : SyncResult) (fallback : Template) : Template :=
  match res with
  | .err _ => fallback
  | .report r => r.templateOut

/-- The errors list of a successful instantiate result. -/
def instErrors (out : InstOutput) : Option (List String) :=
  match out.result with
  | .ok r => some r.errors
  | .boardError _ => none

/-- The created-card count of a successful instantiate result. -/
def instCards (out : InstOutput) : Option Nat :=
  match out.result with
  | .ok r => some r.cardsCreated
  | .boardError _ => none

/-! ## Concrete fixtures used by witnesses and counterexamples -/

/-- A three-task template whose middle task's card creation the fixture
backend rejects. -/
def tplC1 : Template :=
  { meta := some ⟨some "t1", some "T One", some "1.0.0"⟩,
    board := some { title := some "${PROJECT_NAME} Board", description := none,
                    icon := none, type := none, cardProperties := [] },
    phases := [{ number := some 1, name := some "Phase One",
                 tasks := [⟨some "T-1", some "Good task", none, none, [], []⟩,
                           ⟨some "T-2", some "Bad task", none, none, [], []⟩,
                           ⟨some "T-3", some "Tail task", none, none, [], []⟩] }],
    feedback := none, instances := none }

/-- A backend that accepts the board and every card except the one titled
`"Bad task"`. -/
def envC1 : Env :=
  { boardCreate := fun _ => .ok (some "B1"),
    cardCreate := fun _ cd => if cd.title = "Bad task" then .err "boom" else .ok (some "C1"),
    getCardBlocks := fun _ => none,
    viewPost := fun _ _ => .ok none,
    genId := fun n => "id" ++ toString n,
    today := "2026-01-01", nowIso := "2026-01-01T00:00:00", nowMs := 0,
    findCategory := fun _ => some "framework" }

/-- A one-task template for the fatal board-creation case. -/
def tplC2 : Template :=
  { meta := some ⟨some "t2", some "T Two", some "1.0.0"⟩,
    board := some { title := some "${PROJECT_NAME} Board", description := none,
                    icon := none, type := none, cardProperties := [] },
    phases := [{ number := some 1, name := none,
                 tasks := [⟨some "T-1", some "Solo task", none, none, [], []⟩] }],
    feedback := none, instances := none }

/-- A backend whose board creation fails. -/
def envC2 : Env :=
  { boardCreate := fun _ => .err "down",
    cardCreate := fun _ _ => .ok (some "C1"),
    getCardBlocks := fun _ => none,
    viewPost := fun _ _ => .ok none,
    genId := fun n => "id" ++ toString n,
    today := "2026-01-01", nowIso := "2026-01-01T00:00:00", nowMs := 0,
    findCategory := fun _ => some "framework" }

/-- A template whose card-property schema has no property named
`Status` (only `Priority`). -/
def tplC7 : Template :=
  { meta := some ⟨some "t7", some "T Seven", some "1.0.0"⟩,
    board := some { title := some "${PROJECT_NAME} Board", description := none,
                    icon := none, type := none,
                    cardProperties := [⟨some "p-1", some "Priority", []⟩] },
    phases := [], feedback := none, instances := none }

/-- A backend that accepts everything, for the view-creation claims. -/
def envC7 : Env :=
  { boardCreate := fun _ => .ok (some "B7"),
    cardCreate := fun _ _ => .ok (some "C1"),
    getCardBlocks := fun _ => none,
    viewPost := fun _ _ => .ok none,
    genId := fun n => "id" ++ toString n,
    today := "2026-01-01", nowIso := "2026-01-01T00:00:00", nowMs := 0,
    findCategory := fun _ => some "framework" }

/-- A template with no tasks, so any board card is extra. -/
def tplC4 : Template :=
  { meta := some ⟨some "t4", some "T Four", some "1.0.0"⟩,
    board := some ⟨some "B", none, none, none, []⟩,
    phases := [], feedback := none, instances := none }

/-- A board holding exactly one card, titled `"Extra Task"`. -/
def cardsC4 : List BoardCard := [⟨some "c1", some "Extra Task", none⟩]

/-- A sync backend serving `cardsC4` and enumerating the extra set as
the singleton list. -/
def envC4 : SyncEnv :=
  { getBoard := fun _ => .ok (),
    getCards := fun _ => .ok (some cardsC4),
    syncCardCreate := fun _ _ => .ok none,
    enumExtra := fun _ => [some "Extra Task"],
    genId := fun n => "block" ++ toString n,
    dateStr := "2026-01-02", nowIso := "2026-01-02T00:00:00",
    findCategory := fun _ => some "framework" }

/-- Append proposals to a template's pending list, defaulting a missing
`feedback` section exactly as the sync apply path does. -/
def withAppendedProposals (tpl : Template) (ps : List FeedbackProposal) : Template :=
  let fb := tpl.feedback.getD ⟨[], [], []⟩
  let fb' := { fb with pending_proposals := fb.pending_proposals ++ ps }
  { tpl with feedback := some fb' }

/-- A well-formed template document for the discovery fixtures: one
phase with one task. -/
def goodTemplateJson : Json :=
  .obj [("meta", .obj [("id", .str "good-tpl"), ("name", .str "Good"),
                       ("version", .str "1.0.0")]),
        ("phases", .arr [.obj [("tasks", .arr [.obj []])]])]

/-- The summary discovery builds for `goodTemplateJson` in category
`framework`. -/
def goodSummary : TemplateSummary :=
  { id := .str "good-tpl", name := .str "Good", version := .str "1.0.0",
    category := "framework", description := .str "", author := .str "Unknown",
    complexity := .str "medium", tags := .arr [],
    path := "/templates/framework/good/template.json",
    phases_count := 1, tasks_count := 1 }

/-- A template root where `bad/template.json` exists but fails
`open`/`json.load` (the caught failure modes) next to a valid
template. -/
def discoveryTreeSkipped : TemplateRoot :=
  { rootExists := true,
    entries := [{ name := "framework", isDir := true, entries :=
      [{ name := "bad", isDir := true, templateJson := .unreadable },
       { name := "good", isDir := true, templateJson := .parsed goodTemplateJson }] }] }

/-- The same tree except `bad/template.json` holds `42`: valid JSON that
is not an object. -/
def discoveryTreeCrash : TemplateRoot :=
  { rootExists := true,
    entries := [{ name := "framework", isDir := true, entries :=
      [{ name := "bad", isDir := true, templateJson := .parsed (.num 42) },
       { name := "good", isDir := true, templateJson := .parsed goodTemplateJson }] }] }

/-! ## Theorems -/

/-! ### Variable substitution (C6) -/

theorem replaceFuel_eq_of_not_occurs (pat rep : List Char) :
    ∀ (fuel : Nat) (s : List Char), occursIn pat s = false →
      replaceFuel pat rep fuel s = s := by
  intro fuel
  induction fuel with
  | zero => intro s _; rfl
  | succ n ih =>
    intro s hs
    cases s with
    | nil => rfl
    | cons c rest =>
      rw [occursIn] at hs
      simp only [Bool.or_eq_false_iff] at hs
      rw [replaceFuel, if_neg (by simp [hs.1]), ih rest hs.2]

theorem pyReplace_eq_of_not_occurs (s pat rep : String)
    (h : occursIn pat.data s.data = false) : pyReplace s pat rep = s := by
  unfold pyReplace
  split
  · rfl
  · rw [replaceFuel_eq_of_not_occurs pat.data rep.data s.data.length s.data h]

theorem substituteVariables_eq_of_not_occurs (text : String) (kvs : List (String × String))
    (h : ∀ kv ∈ kvs, occursIn ("$\x7b" ++ kv.1 ++ "\x7d").data text.data = false) :
    substituteVariables text kvs = text := by
  induction kvs with
  | nil => rfl
  | cons kv rest ih =>
    have h1 : pyReplace text ("$\x7b" ++ kv.1 ++ "\x7d") kv.2 = text :=
      pyReplace_eq_of_not_occurs _ _ _ (h kv (List.mem_cons_self _ _))
    show List.foldl _ text (kv :: rest) = text
    rw [List.foldl_cons]
    show substituteVariables (pyReplace text ("$\x7b" ++ kv.1 ++ "\x7d") kv.2) rest = text
    rw [h1]
    exact ih (fun kv hkv => h kv (List.mem_cons_of_mem _ hkv))

theorem substituteVariables_append_key (text : String) (kvs : List (String × String))
    (k v : String) :
    substituteVariables text (kvs ++ [(k, v)]) =
      pyReplace (substituteVariables text kvs) ("$\x7b" ++ k ++ "\x7d") v := by
  unfold substituteVariables
  rw [List.foldl_append]
  rfl

/-- C6: the claim asserts that `substitute` performs no nested
resolution — "a token introduced by one substituted value is never
itself substituted".  That is false for the source: substitution walks
the map key by key, so the token `${B}` introduced by the value of the
earlier key `A` is itself replaced by the later key `B`.  On
`"${A}"` with `{A: "${B}", B: "x"}` the claim predicts `"${B}"`, the
code yields `"x"`. -/
theorem substitute_nested_resolution_counterexample :
    substituteVariables "${A}" [("A", "${B}"), ("B", "x")] = "x" ∧
    substituteVariables "${A}" [("A", "${B}"), ("B", "x")] ≠ "${B}" := by
  constructor
  · decide
  · decide

/-- C6 (amended): `substitute` replaces tokens one key at a time in map
insertion order, each step replacing every occurrence of `${KEY}` in the
current text — so a token introduced by an earlier key's value is itself
substituted when its key comes later in the map.  Text in which no key's
token occurs is returned verbatim (no error), the empty map leaves any
text unchanged, and the two concrete cases of the spec hold.
Determinism and freedom from side effects hold because the embedding is
a pure function of its arguments. -/
theorem substitute_characterization :
    (∀ text : String, substituteVariables text [] = text) ∧
    (∀ (text : String) (kvs : List (String × String)) (k v : String),
       substituteVariables text (kvs ++ [(k, v)]) =
         pyReplace (substituteVariables text kvs) ("$\x7b" ++ k ++ "\x7d") v) ∧
    (∀ (text : String) (kvs : List (String × String)),
       (∀ kv ∈ kvs, occursIn ("$\x7b" ++ kv.1 ++ "\x7d").data text.data = false) →
       substituteVariables text kvs = text) ∧
    substituteVariables "${P} board" [("P", "X")] = "X board" ∧
    substituteVariables "${MISSING}" [] = "${MISSING}" ∧
    substituteVariables "${A}" [("A", "${B}"), ("B", "x")] = "x" := by
  refine ⟨fun _ => rfl, substituteVariables_append_key,
    substituteVariables_eq_of_not_occurs, by decide, rfl, by decide⟩

/-- Witness for `substitute_characterization`: the unresolved-token part
applied at a concrete text and map. -/
theorem substitute_characterization_witness :
    substituteVariables "${MISSING}" [("P", "X")] = "${MISSING}" :=
  substitute_characterization.2.2.1 "${MISSING}" [("P", "X")] (by decide)

/-! ### Sync diff (C3) -/

/-- C3: the diff computed by sync satisfies `missing ∩ extra = ∅`, and
whenever `extra = ∅` the board titles together with `missing` are
exactly the template titles. -/
theorem sync_diff_disjoint_and_complete (tpl : Template) (cards : List BoardCard) :
    missingFromBoard tpl cards ∩ extraInBoard tpl cards = ∅ ∧
    (extraInBoard tpl cards = ∅ →
      missingFromBoard tpl cards ∪ boardTitleSet cards = templateTitleSet tpl) := by
  constructor
  · ext x
    simp only [missingFromBoard, extraInBoard, Finset.mem_inter, Finset.mem_sdiff,
      Finset.not_mem_empty, iff_false]
    tauto
  · intro h
    have hsub : boardTitleSet cards ⊆ templateTitleSet tpl := by
      rwa [extraInBoard, Finset.sdiff_eq_empty_iff_subset] at h
    rw [missingFromBoard, Finset.sdiff_union_self_eq_union]
    exact Finset.union_eq_left.mpr hsub

/-- Witness for `sync_diff_disjoint_and_complete` at a concrete template
and board: the template task `"Query"` is missing from a board holding
only `"Done"` is extra-free after adding it. -/
theorem sync_diff_disjoint_and_complete_witness :
    missingFromBoard
        ⟨none, none, [⟨some 1, none, [⟨none, some "Query", none, none, [], []⟩]⟩], none, none⟩
        [⟨some "c1", some "Query", none⟩] ∩
      extraInBoard
        ⟨none, none, [⟨some 1, none, [⟨none, some "Query", none, none, [], []⟩]⟩], none, none⟩
        [⟨some "c1", some "Query", none⟩] = ∅ ∧
    missingFromBoard
        ⟨none, none, [⟨some 1, none, [⟨none, some "Query", none, none, [], []⟩]⟩], none, none⟩
        [⟨some "c1", some "Query", none⟩] ∪
      boardTitleSet [⟨some "c1", some "Query", none⟩] =
      templateTitleSet
        ⟨none, none, [⟨some 1, none, [⟨none, some "Query", none, none, [], []⟩]⟩], none, none⟩ := by
  refine ⟨(sync_diff_disjoint_and_complete _ _).1,
    (sync_diff_disjoint_and_complete _ _).2 ?_⟩
  decide

/-! ### Dictionary lemmas -/

theorem find?_map_replace {α : Type} (k : String) (v : α) :
    ∀ m : List (String × α), m.any (fun kv => kv.1 = k) = true →
      (m.map (fun kv => if kv.1 = k then (k, v) else kv)).find?
        (fun kv => kv.1 = k) = some (k, v) := by
  intro m
  induction m with
  | nil => intro h; simp at h
  | cons kv rest ih =>
    intro h
    by_cases hk : kv.1 = k
    · simp only [List.map_cons, if_pos hk]
      rw [List.find?_cons_of_pos _ (by simp)]
    · simp only [List.map_cons, if_neg hk]
      rw [List.find?_cons_of_neg _ (by simp [hk])]
      apply ih
      simp only [List.any_cons, Bool.or_eq_true] at h
      rcases h with h | h
      · exact absurd (by simpa using h) hk
      · exact h

theorem find?_map_replace_ne {α : Type} (k k' : String) (v : α) (hne : k' ≠ k) :
    ∀ m : List (String × α),
      (m.map (fun kv => if kv.1 = k then (k, v) else kv)).find?
        (fun kv => kv.1 = k') = m.find? (fun kv => kv.1 = k') := by
  intro m
  induction m with
  | nil => rfl
  | cons kv rest ih =>
    by_cases hk : kv.1 = k
    · simp only [List.map_cons, if_pos hk]
      rw [List.find?_cons_of_neg _ (by simp [Ne.symm hne]),
        List.find?_cons_of_neg _ (by simp [hk, Ne.symm hne])]
      exact ih
    · simp only [List.map_cons, if_neg hk]
      by_cases hk' : kv.1 = k'
      · rw [List.find?_cons_of_pos _ (by simp [hk']), List.find?_cons_of_pos _ (by simp [hk'])]
      · rw [List.find?_cons_of_neg _ (by simp [hk']), List.find?_cons_of_neg _ (by simp [hk'])]
        exact ih

theorem dlookup_dinsert_self {α : Type} (l : List (String × α)) (k : String) (v : α) :
    dlookup (dinsert l k v) k = some v := by
  unfold dinsert dlookup
  split
  · next h =>
    rw [← List.map_reverse, find?_map_replace k v l.reverse (by
      rw [List.any_reverse]; exact h)]
    rfl
  · rw [List.reverse_append]
    simp

theorem dlookup_dinsert_ne {α : Type} (l : List (String × α)) (k k' : String) (v : α)
    (hne : k' ≠ k) : dlookup (dinsert l k v) k' = dlookup l k' := by
  unfold dinsert dlookup
  split
  · rw [← List.map_reverse, find?_map_replace_ne k k' v hne l.reverse]
  · rw [List.reverse_append]
    simp only [List.reverse_cons, List.reverse_nil, List.nil_append, List.singleton_append]
    rw [List.find?_cons_of_neg _ (by simp [Ne.symm hne])]

/-! ### Tracking round-trip (C8) -/

/-- C8: for any board property state, writing the three tracking fields
through a validated `setTracking` call and reading them back through
`getTracking` returns exactly the written triple, assuming the backend
faithfully merges and returns written board properties (modelled by the
property-map update).  Validation rejects an empty (post-strip) template
id, which is what guarantees the read does not hit the untracked
branch. -/
theorem tracking_set_get_roundtrip (props : List (String × String))
    (b t v u bs ts vs us : String)
    (hval : validateSetTracking b t v u = some (bs, ts, vs, us)) :
    getBoardTracking (setBoardTracking props ts vs us) = .tracked ts vs us := by
  have hts : ts ≠ "" := by
    unfold validateSetTracking at hval
    split at hval
    · next h =>
      obtain ⟨rfl, rfl, rfl, rfl⟩ :=
        Prod.mk.injEq .. ▸ (by exact Option.some.inj hval :
          (pyStrip b, pyStrip t, pyStrip v, pyStrip u) = (bs, ts, vs, us))
      exact h.2.1
    · exact absurd hval (by simp)
  unfold getBoardTracking setBoardTracking
  rw [dlookup_dinsert_ne _ _ _ _ (by decide), dlookup_dinsert_ne _ _ _ _ (by decide),
    dlookup_dinsert_self, dlookup_dinsert_ne _ _ _ _ (by decide), dlookup_dinsert_self,
    dlookup_dinsert_self]
  simp [hts]

/-- Witness for `tracking_set_get_roundtrip`: the spec's concrete
round-trip `setTracking(b,"t","1.0.0","current")` then `getTracking`. -/
theorem tracking_set_get_roundtrip_witness :
    getBoardTracking (setBoardTracking [] "t" "1.0.0" "current") =
      .tracked "t" "1.0.0" "current" :=
  tracking_set_get_roundtrip [] "b1" "t" "1.0.0" "current" "b1" "t" "1.0.0" "current"
    (by decide)

/-! ### Status option lookup during instantiate (C10) -/

/-- C10: the instantiate loop resolves a task's Status option by looking
up the title-cased, hyphen-to-space transformation of the raw status
value (`status.replace("-", " ").title()`, `server.py` 2402); whatever
that lookup yields — and nothing else — determines the Status entry of
the card's properties, with an absent or empty option id leaving the
property unset.  In particular a status of `"not-started"` is matched
against the option value `"Not Started"`, so an options list storing the
raw value `"not-started"` matches nothing and the Status property stays
unset (last conjunct, concrete). -/
theorem status_option_lookup_titlecased (maps : PropMaps) (vars : List (String × String))
    (phaseNum : Nat) (task : Task) (sid : String) (opts : List (String × String))
    (hpm : dlookup maps.property_map "Status" = some sid)
    (hom : dlookup maps.option_map "Status" = some opts)
    (hph : dlookup maps.property_map "Phase" = none) :
    ((buildCardData maps vars phaseNum task).properties =
      match dlookup opts (pyTitle (pyReplace (task.status.getD "not-started") "-" " ")) with
      | some oid => if oid = "" then [] else [(sid, oid)]
      | none => []) ∧
    (task.status = some "not-started" → dlookup opts "Not Started" = none →
      (buildCardData maps vars phaseNum task).properties = []) ∧
    (buildCardData ⟨[("Status", "sid-1")], [("Status", [("not-started", "opt-7")])]⟩ []
        2 ⟨none, some "T", none, some "not-started", [], []⟩).properties = [] := by
  have h1 : (buildCardData maps vars phaseNum task).properties =
      match dlookup opts (pyTitle (pyReplace (task.status.getD "not-started") "-" " ")) with
      | some oid => if oid = "" then [] else [(sid, oid)]
      | none => [] := by
    unfold buildCardData
    simp only [hpm, hom, hph]
    cases hcase : dlookup opts (pyTitle (pyReplace (task.status.getD "not-started") "-" " ")) with
    | none => simp [hcase]
    | some oid =>
      by_cases hoid : oid = ""
      · simp [hcase, hoid]
      · simp [hcase, hoid, dinsert]
  refine ⟨h1, fun hst hnone => ?_, by decide⟩
  rw [h1, hst]
  have hkey : pyTitle (pyReplace ((some "not-started").getD "not-started") "-" " ")
      = "Not Started" := by decide
  rw [hkey, hnone]

/-- Witness for `status_option_lookup_titlecased`: a status of
`"not-started"` finds the option stored under `"Not Started"`. -/
theorem status_option_lookup_titlecased_witness :
    (buildCardData ⟨[("Status", "sid-1")], [("Status", [("Not Started", "opt-7")])]⟩ []
        2 ⟨none, some "T", none, some "not-started", [], []⟩).properties =
      [("sid-1", "opt-7")] := by
  have h := status_option_lookup_titlecased
      ⟨[("Status", "sid-1")], [("Status", [("Not Started", "opt-7")])]⟩ [] 2
      ⟨none, some "T", none, some "not-started", [], []⟩ "sid-1" [("Not Started", "opt-7")]
      (by decide) (by decide) (by decide)
  exact h.1.trans (by decide)

/-! ### The instantiate per-task loop -/

theorem viewPosts_append (a b : List Effect) :
    viewPosts (a ++ b) = viewPosts a ++ viewPosts b := by
  unfold viewPosts
  exact List.filterMap_append ..

theorem processTask_spec (env : Env) (boardId : String) (maps : PropMaps)
    (vars : List (String × String)) (phaseNum : Nat) (st : LoopState) (task : Task) :
    (processTask env boardId maps vars phaseNum st task).errors =
      st.errors ++ (taskErrorMsg env boardId maps vars (phaseNum, task)).toList ∧
    (processTask env boardId maps vars phaseNum st task).cardsCreated =
      st.cardsCreated +
        (if (taskErrorMsg env boardId maps vars (phaseNum, task)).isNone then 1 else 0) ∧
    viewPosts (processTask env boardId maps vars phaseNum st task).effects =
      viewPosts st.effects := by
  have hsplit : (∃ e, env.cardCreate boardId (buildCardData maps vars phaseNum task) =
        ApiResult.err e) ∨
      (∃ o, env.cardCreate boardId (buildCardData maps vars phaseNum task) =
        ApiResult.ok o) := by
    cases env.cardCreate boardId (buildCardData maps vars phaseNum task)
    · exact .inl ⟨_, rfl⟩
    · exact .inr ⟨_, rfl⟩
  rcases hsplit with ⟨e, hc⟩ | ⟨o, hc⟩ <;>
    simp only [processTask, taskErrorMsg, hc] <;>
    refine ⟨?_, ?_, ?_⟩ <;>
    · repeat' split
      all_goals simp_all [viewPosts_append, viewPosts]

theorem taskFoldl_spec (env : Env) (boardId : String) (maps : PropMaps)
    (vars : List (String × String)) (phaseNum : Nat) :
    ∀ (tasks : List Task) (st : LoopState),
      (tasks.foldl (processTask env boardId maps vars phaseNum) st).errors =
        st.errors ++
          (tasks.map (fun t => (phaseNum, t))).filterMap (taskErrorMsg env boardId maps vars) ∧
      (tasks.foldl (processTask env boardId maps vars phaseNum) st).cardsCreated =
        st.cardsCreated +
          (tasks.map (fun t => (phaseNum, t))).countP
            (fun pt => (taskErrorMsg env boardId maps vars pt).isNone) ∧
      viewPosts (tasks.foldl (processTask env boardId maps vars phaseNum) st).effects =
        viewPosts st.effects := by
  intro tasks
  induction tasks with
  | nil => intro st; simp
  | cons t rest ih =>
    intro st
    rw [List.foldl_cons]
    obtain ⟨he, hc, hv⟩ := ih (processTask env boardId maps vars phaseNum st t)
    obtain ⟨pe, pc, pv⟩ := processTask_spec env boardId maps vars phaseNum st t
    refine ⟨?_, ?_, by rw [hv, pv]⟩
    · rw [he, pe]
      cases hm : taskErrorMsg env boardId maps vars (phaseNum, t) <;>
        simp [hm, List.filterMap_cons]
    · rw [hc, pc]
      cases hm : taskErrorMsg env boardId maps vars (phaseNum, t)
      all_goals simp [hm, List.countP_cons]
      all_goals omega

theorem runTaskLoop_spec (env : Env) (boardId : String) (maps : PropMaps)
    (vars : List (String × String)) :
    ∀ (phases : List Phase) (st : LoopState),
      (runTaskLoop env boardId maps vars phases st).errors =
        st.errors ++ (flatTasks phases).filterMap (taskErrorMsg env boardId maps vars) ∧
      (runTaskLoop env boardId maps vars phases st).cardsCreated =
        st.cardsCreated +
          (flatTasks phases).countP (fun pt => (taskErrorMsg env boardId maps vars pt).isNone) ∧
      viewPosts (runTaskLoop env boardId maps vars phases st).effects =
        viewPosts st.effects := by
  intro phases
  induction phases with
  | nil => intro st; simp [runTaskLoop, flatTasks]
  | cons ph rest ih =>
    intro st
    have hstep : runTaskLoop env boardId maps vars (ph :: rest) st =
        runTaskLoop env boardId maps vars rest
          (ph.tasks.foldl (processTask env boardId maps vars (ph.number.getD 0)) st) := by
      simp [runTaskLoop]
    rw [hstep]
    obtain ⟨he, hc, hv⟩ :=
      ih (ph.tasks.foldl (processTask env boardId maps vars (ph.number.getD 0)) st)
    obtain ⟨fe, fc, fv⟩ := taskFoldl_spec env boardId maps vars (ph.number.getD 0) ph.tasks st
    have hflat : flatTasks (ph :: rest) =
        ph.tasks.map (fun t => (ph.number.getD 0, t)) ++ flatTasks rest := by
      simp [flatTasks]
    refine ⟨?_, ?_, by rw [hv, fv]⟩
    · rw [he, fe, hflat, List.filterMap_append, List.append_assoc]
    · rw [hc, fc, hflat, List.countP_append]
      omega

/-! ### Instantiate error handling (C1, C2) and view creation (C7) -/

/-- C1: when board creation succeeds, every task of every phase is
visited in template order; each task whose card-creation call fails
contributes exactly one message to the errors list (and nothing to the
created count), each success contributes exactly one created card, no
failure aborts the batch, and the returned result carries the board id,
the created-card count and the errors list. -/
theorem instantiate_per_task_failure_isolated (env : Env) (tpl : Template)
    (templateId projectName teamId : String) (callerVars : Option (List (String × String)))
    (bid : Option String)
    (hb : env.boardCreate (instBoardData env tpl projectName teamId callerVars) =
      ApiResult.ok bid) :
    ∃ r : InstOk,
      (instantiateTemplate env tpl templateId projectName teamId callerVars).result =
        InstResult.ok r ∧
      r.boardId = bid.getD "unknown" ∧
      r.errors = (flatTasks tpl.phases).filterMap
        (taskErrorMsg env (bid.getD "unknown") (instMaps tpl)
          (instVars env projectName callerVars)) ∧
      r.cardsCreated = (flatTasks tpl.phases).countP
        (fun pt => (taskErrorMsg env (bid.getD "unknown") (instMaps tpl)
          (instVars env projectName callerVars) pt).isNone) := by
  simp only [instantiateTemplate, hb]
  obtain ⟨he, hc, _⟩ := runTaskLoop_spec env (bid.getD "unknown") (instMaps tpl)
    (instVars env projectName callerVars) tpl.phases
    { cardsCreated := 0, errors := [], nextId := 0,
      effects := [Effect.boardPost (instBoardData env tpl projectName teamId callerVars)] }
  exact ⟨_, rfl, rfl, by simpa using he, by simpa using hc⟩

/-- Witness for `instantiate_per_task_failure_isolated`: of three tasks
the middle one fails; exactly one error message is recorded, the two
other cards are still created. -/
theorem instantiate_per_task_failure_isolated_witness :
    instErrors (instantiateTemplate envC1 tplC1 "t1" "P" "0" none) =
      some ["Task 'Bad task': boom"] ∧
    instCards (instantiateTemplate envC1 tplC1 "t1" "P" "0" none) = some 2 := by
  obtain ⟨r, hres, _, herr, hcnt⟩ :=
    instantiate_per_task_failure_isolated envC1 tplC1 "t1" "P" "0" none (some "B1") rfl
  constructor
  · unfold instErrors
    rw [hres]
    show some r.errors = _
    rw [herr]
    decide
  · unfold instCards
    rw [hres]
    show some r.cardsCreated = _
    rw [hcnt]
    decide

/-- C2: when the board-creation call fails, instantiate returns the
error at once; the trace holds nothing but the board-creation attempt —
no card creation, no view creation, no template save — and no instance
record is produced. -/
theorem instantiate_board_failure_fatal (env : Env) (tpl : Template)
    (templateId projectName teamId : String) (callerVars : Option (List (String × String)))
    (e : String)
    (hb : env.boardCreate (instBoardData env tpl projectName teamId callerVars) =
      ApiResult.err e) :
    instantiateTemplate env tpl templateId projectName teamId callerVars =
      { result := InstResult.boardError ("Error creating board: " ++ e),
        effects := [Effect.boardPost (instBoardData env tpl projectName teamId callerVars)] } := by
  simp only [instantiateTemplate, hb]

/-- Witness for `instantiate_board_failure_fatal` at a concrete backend
whose board creation is down. -/
theorem instantiate_board_failure_fatal_witness :
    instantiateTemplate envC2 tplC2 "t2" "P" "0" none =
      { result := InstResult.boardError "Error creating board: down",
        effects := [Effect.boardPost (instBoardData envC2 tplC2 "P" "0" none)] } :=
  instantiate_board_failure_fatal envC2 tplC2 "t2" "P" "0" none "down" rfl

/-- C7 counterexample: the claim makes view creation conditional on a
`Status` property existing in the schema.  On a template whose schema
has no `Status` property the code still posts the default table view
(with an empty visible-property list): view creation is unconditional
(`server.py` 2524-2557 runs after the task loop with no guard). -/
theorem instantiate_view_without_status_counterexample :
    dlookup (instMaps tplC7).property_map "Status" = none ∧
    viewPosts (instantiateTemplate envC7 tplC7 "t7" "P" "0" none).effects ≠ [] := by
  constructor
  · decide
  · decide

/-- C7 (amended): after a successful board creation, instantiate always
posts exactly one default table-style view titled `"Task Overview"`,
whether or not a `Status` property exists; its visible-property list is
`[statusPropertyId]` when the schema maps the name `Status` to a
non-empty property id, and empty otherwise (this is the
`visiblePropertyIds` field of `mkViewData`). -/
theorem instantiate_always_creates_view (env : Env) (tpl : Template)
    (templateId projectName teamId : String) (callerVars : Option (List (String × String)))
    (bid : Option String)
    (hb : env.boardCreate (instBoardData env tpl projectName teamId callerVars) =
      ApiResult.ok bid) :
    ∃ vid, viewPosts (instantiateTemplate env tpl templateId projectName teamId callerVars).effects =
      [mkViewData env (bid.getD "unknown") vid
        ((dlookup (instMaps tpl).property_map "Status").getD "")] := by
  simp only [instantiateTemplate, hb]
  obtain ⟨_, _, hv⟩ := runTaskLoop_spec env (bid.getD "unknown") (instMaps tpl)
    (instVars env projectName callerVars) tpl.phases
    { cardsCreated := 0, errors := [], nextId := 0,
      effects := [Effect.boardPost (instBoardData env tpl projectName teamId callerVars)] }
  refine ⟨env.genId (runTaskLoop env (bid.getD "unknown") (instMaps tpl)
      (instVars env projectName callerVars) tpl.phases
      { cardsCreated := 0, errors := [], nextId := 0,
        effects := [Effect.boardPost (instBoardData env tpl projectName teamId callerVars)] }).nextId,
    ?_⟩
  rw [viewPosts_append, viewPosts_append, hv]
  cases hfc : env.findCategory templateId <;> simp [hfc, viewPosts]

/-- Witness for `instantiate_always_creates_view`: the Status-free
fixture still gets exactly one view. -/
theorem instantiate_always_creates_view_witness :
    (viewPosts (instantiateTemplate envC7 tplC7 "t7" "P" "0" none).effects).length = 1 := by
  obtain ⟨vid, hv⟩ := instantiate_always_creates_view envC7 tplC7 "t7" "P" "0" none (some "B7") rfl
  rw [hv]
  rfl

/-! ### SyncEngine frame property (C5) and feedback proposals (C4) -/

/-- C5: a `board_to_template` sync — dry run or not, error or not —
returns a template document that can differ from the input only in its
`feedback` section: `phases` (as well as `meta`, `board` and
`instances`) are never mutated on this path. -/
theorem sync_b2t_only_mutates_feedback (env : SyncEnv) (tpl : Template)
    (boardId templateId : String) (dryRun : Bool) :
    syncTemplateOut (syncTemplate env tpl boardId templateId "board_to_template" dryRun) tpl =
      { tpl with feedback :=
          (syncTemplateOut (syncTemplate env tpl boardId templateId "board_to_template" dryRun)
            tpl).feedback } := by
  simp only [syncTemplate]
  repeat' split
  all_goals simp [syncTemplateOut]

theorem nodup_toFinset_singleton {α : Type} [DecidableEq α] (l : List α) (a : α)
    (hnd : l.Nodup) (hts : l.toFinset = {a}) : l = [a] := by
  cases l with
  | nil =>
    rw [List.toFinset_nil] at hts
    exact absurd hts.symm (Finset.singleton_ne_empty a)
  | cons x xs =>
    have hxa : x = a := by
      have hx : x ∈ ({a} : Finset α) := by
        rw [← hts]; simp
      simpa using hx
    cases xs with
    | nil => rw [hxa]
    | cons y ys =>
      have hya : y = a := by
        have hy : y ∈ ({a} : Finset α) := by
          rw [← hts]; simp
        simpa using hy
      exfalso
      have : x ∈ y :: ys := by
        rw [hxa, ← hya]
        exact List.mem_cons_self y ys
      exact (List.nodup_cons.mp hnd).1 this

/-- The `board_to_template` apply path: with a fetchable board and card
list and a non-empty extra set, sync returns a report whose template
carries the old pending proposals extended by one proposal per
enumerated extra title. -/
theorem sync_b2t_apply (env : SyncEnv) (tpl : Template) (cards : List BoardCard)
    (boardId templateId : String)
    (hb : env.getBoard boardId = Except.ok ())
    (hc : env.getCards boardId = Except.ok (some cards))
    (hne : extraInBoard tpl cards ≠ ∅) :
    ∃ r : SyncReport,
      syncTemplate env tpl boardId templateId "board_to_template" false = .report r ∧
      r.templateOut = withAppendedProposals tpl
        ((env.enumExtra (extraInBoard tpl cards)).enum.map
          (fun p => mkProposal env boardId p.1 p.2)) := by
  simp only [syncTemplate, hb, hc, Option.getD_some]
  rw [if_neg (fun h => absurd h.1 (by decide)), if_pos ⟨by trivial, hne⟩, if_neg (by simp)]
  exact ⟨_, rfl, rfl⟩

theorem pendingOf_withAppendedProposals (tpl : Template) (ps : List FeedbackProposal) :
    pendingOf (withAppendedProposals tpl ps) = pendingOf tpl ++ ps := by
  simp [pendingOf, withAppendedProposals]

/-- C4: on a board whose diff against the template yields exactly one
extra title, a `board_to_template` sync with `dryRun = false` appends
exactly one pending proposal — type `add_task`, status `pending`, empty
approve and reject vote lists, `change.title` the extra card's title —
and running the same sync again against the resulting template appends a
second such proposal: nothing deduplicates them.  (`enumExtra` models
Python set iteration, constrained only to enumerate each element
once.) -/
theorem sync_b2t_duplicate_proposals (env env2 : SyncEnv) (tpl : Template)
    (cards : List BoardCard) (boardId templateId : String) (xt : Option String)
    (hb1 : env.getBoard boardId = Except.ok ())
    (hc1 : env.getCards boardId = Except.ok (some cards))
    (hb2 : env2.getBoard boardId = Except.ok ())
    (hc2 : env2.getCards boardId = Except.ok (some cards))
    (hx : extraInBoard tpl cards = {xt})
    (hen1 : (env.enumExtra {xt}).Nodup) (hts1 : (env.enumExtra {xt}).toFinset = {xt})
    (hen2 : (env2.enumExtra {xt}).Nodup) (hts2 : (env2.enumExtra {xt}).toFinset = {xt}) :
    ∃ r1 r2 : SyncReport,
      syncTemplate env tpl boardId templateId "board_to_template" false = .report r1 ∧
      pendingOf r1.templateOut = pendingOf tpl ++ [mkProposal env boardId 0 xt] ∧
      syncTemplate env2 r1.templateOut boardId templateId "board_to_template" false =
        .report r2 ∧
      pendingOf r2.templateOut =
        pendingOf tpl ++ [mkProposal env boardId 0 xt, mkProposal env2 boardId 0 xt] ∧
      (mkProposal env boardId 0 xt).type = "add_task" ∧
      (mkProposal env boardId 0 xt).status = "pending" ∧
      (mkProposal env boardId 0 xt).approveVotes = [] ∧
      (mkProposal env boardId 0 xt).rejectVotes = [] ∧
      (mkProposal env boardId 0 xt).changeTitle = xt := by
  have hne : extraInBoard tpl cards ≠ ∅ := by
    rw [hx]; exact Finset.singleton_ne_empty xt
  obtain ⟨r1, hrep1, hout1⟩ := sync_b2t_apply env tpl cards boardId templateId hb1 hc1 hne
  have henum1 : env.enumExtra (extraInBoard tpl cards) = [xt] := by
    rw [hx]; exact nodup_toFinset_singleton _ _ hen1 hts1
  have hpend1 : pendingOf r1.templateOut = pendingOf tpl ++ [mkProposal env boardId 0 xt] := by
    rw [hout1, henum1, pendingOf_withAppendedProposals]
    rfl
  have hphases : extraInBoard r1.templateOut cards = extraInBoard tpl cards := by
    rw [hout1]; rfl
  have hne2 : extraInBoard r1.templateOut cards ≠ ∅ := by
    rw [hphases]; exact hne
  obtain ⟨r2, hrep2, hout2⟩ :=
    sync_b2t_apply env2 r1.templateOut cards boardId templateId hb2 hc2 hne2
  have henum2 : env2.enumExtra (extraInBoard r1.templateOut cards) = [xt] := by
    rw [hphases, hx]; exact nodup_toFinset_singleton _ _ hen2 hts2
  have hpend2 : pendingOf r2.templateOut =
      pendingOf tpl ++ [mkProposal env boardId 0 xt, mkProposal env2 boardId 0 xt] := by
    rw [hout2, henum2, pendingOf_withAppendedProposals, hpend1]
    simp
  exact ⟨r1, r2, hrep1, hpend1, hrep2, hpend2, rfl, rfl, rfl, rfl, rfl⟩

/-- Witness for `sync_b2t_duplicate_proposals`: on the concrete
board / template fixture, two consecutive non-dry `board_to_template`
syncs leave two identical pending proposals for `"Extra Task"`. -/
theorem sync_b2t_duplicate_proposals_witness :
    pendingOf (syncTemplateOut (syncTemplate envC4
        (syncTemplateOut (syncTemplate envC4 tplC4 "b1" "t4" "board_to_template" false) tplC4)
        "b1" "t4" "board_to_template" false) tplC4) =
      [mkProposal envC4 "b1" 0 (some "Extra Task"),
       mkProposal envC4 "b1" 0 (some "Extra Task")] := by
  obtain ⟨r1, r2, h1, h2, h3, h4, _⟩ :=
    sync_b2t_duplicate_proposals envC4 envC4 tplC4 cardsC4 "b1" "t4" (some "Extra Task")
      rfl rfl rfl rfl (by decide) (by decide) (by decide) (by decide) (by decide)
  rw [h1]
  show pendingOf (syncTemplateOut (syncTemplate envC4 r1.templateOut "b1" "t4"
    "board_to_template" false) tplC4) = _
  rw [h3]
  show pendingOf r2.templateOut = _
  rw [h4]
  rfl

/-! ### Template discovery (C9) -/

/-- C9: a template file that cannot be read or fails JSON parsing is
silently excluded and the remaining valid templates are still returned
(first conjunct, matching the claim) — but the source's `except` clause
catches only `json.JSONDecodeError` and `IOError`, so a `template.json`
holding valid JSON that is not an object (here the document `42`) makes
`template.get("meta", {})` raise an uncaught `AttributeError` and
discovery fails as a whole, valid neighbours included (second conjunct,
contradicting "discovery never fails as a whole"). -/
theorem discover_skips_unparseable_but_crashes_on_nonobject :
    discoverTemplates "/templates" discoveryTreeSkipped none =
      Except.ok [goodSummary] ∧
    discoverTemplates "/templates" discoveryTreeCrash none =
      Except.error (.attributeError "object has no attribute get") := by
  exact ⟨rfl, rfl⟩

end Boards
